import Mathlib

/-!
Shallow embedding of the neuro-viz scripts.

Each namespace embeds one Python script.  Exceptions are modelled with
`Except PyErr`; a Python function whose body cannot raise is embedded as a
pure function.  Library readers, the point locator, and marching cubes are
abstracted as function parameters; image pixel arrays are lists of rationals
(the scripts never do floating-point arithmetic of their own beyond the
affine rescaling in `validate_t1.py`, which is exact on the values the
claims quantify over).  The filesystem is a predicate `String → Bool`
telling which paths exist.
-/

namespace NeuroViz

/-- Exception kinds raised (or hit) by the scripts: Python
`FileNotFoundError`, `ValueError`, and the `AttributeError` that an
attribute access on `None` raises. -/
inductive PyErr
  | fileNotFound
  | valueError
  | attributeError
deriving DecidableEq, Repr

/-- Polygonal mesh data: `vtkPolyData` as the scripts use it — a list of
3-D points and an optional scalar array attached to the point data
(`GetPointData().GetScalars()` returns `None` when absent). -/
structure VtkPolyData where
  points : List (ℚ × ℚ × ℚ)
  scalars : Option (List ℚ)
deriving DecidableEq, Repr

/-- Minimum of a list of rationals, as `numpy`'s `min` / VTK's
`GetRange()[0]` compute it on a nonempty array. -/
def arrMin : List ℚ → ℚ
  | [] => 0
  | x :: xs => xs.foldl min x

/-- Maximum of a list of rationals, as `numpy`'s `max` / VTK's
`GetRange()[1]` compute it on a nonempty array. -/
def arrMax : List ℚ → ℚ
  | [] => 0
  | x :: xs => xs.foldl max x

namespace MapFmriAndBrain

/-- Reader object returned by `load_fmri_image`: the scalar point data the
`vtkNIFTIImageReader` produced for the file, `none` when the image has no
scalar point data. -/
structure FmriReader where
  scalars : Option (List ℚ)
deriving DecidableEq, Repr

/-- Embedding of `load_fmri_image` (map_fmri_and_brain.py, lines 5-30):
raises `FileNotFoundError` when the path does not exist, then raises
`ValueError` when the loaded image has no scalar point data, otherwise
returns the reader.  `readScalars` abstracts what the NIfTI reader yields
for a given path. -/
def load_fmri_image (fs : String → Bool) (readScalars : String → Option (List ℚ))
    (file_path : String) : Except PyErr FmriReader :=
  if ¬ fs file_path then .error .fileNotFound
  else
    let reader : FmriReader := ⟨readScalars file_path⟩
    match reader.scalars with
    | none => .error .valueError
    | some _ => .ok reader

/-- Embedding of `map_fmri_to_surface` (map_fmri_and_brain.py, lines
57-89).  `findClosest` abstracts the `vtkPointLocator.FindClosestPoint`
query on the fMRI grid, returning `none` when the query (or the subsequent
`GetTuple1`) raises `RuntimeError`; `fmri_data` abstracts `GetTuple1` on
the fMRI scalar array.  For each surface point the closest grid point's
scalar is appended (0 on failure), and the finished array is attached to
the surface's point data. -/
def map_fmri_to_surface (findClosest : (ℚ × ℚ × ℚ) → Option ℕ) (fmri_data : ℕ → ℚ)
    (surface_polydata : VtkPolyData) : VtkPolyData :=
  let scalars := surface_polydata.points.map (fun surface_point =>
    match findClosest surface_point with
    | some closest_point_idx => fmri_data closest_point_idx
    | none => 0)
  { surface_polydata with scalars := some scalars }

end MapFmriAndBrain

namespace SurfaceReconstruction

/-- Per-voxel action of `vtkImageThreshold` with both `ReplaceIn` and
`ReplaceOut` enabled: a voxel inside `[lower, upper]` becomes `inValue`,
any other voxel becomes `outValue`. -/
def vtkImageThresholdApply (lower upper inValue outValue : ℚ) (v : ℚ) : ℚ :=
  if lower ≤ v ∧ v ≤ upper then inValue else outValue

/-- Embedding of `segment_data` (surface_reconstruction.py, lines 24-45):
`ThresholdBetween(lower, upper)`, `ReplaceInOn` with `SetInValue(1)`,
`ReplaceOutOn` with `SetOutValue(0)`, applied to every voxel of the input
volume. -/
def segment_data (input : List ℚ) (lower_threshold upper_threshold : ℚ) : List ℚ :=
  input.map (vtkImageThresholdApply lower_threshold upper_threshold 1 0)

/-- Embedding of `calculate_dynamic_isovalue` (surface_reconstruction.py,
lines 48-67): raises `ValueError` when the segmented data has no scalar
array, otherwise returns `(range_min + range_max) * 0.6`. -/
def calculate_dynamic_isovalue (scalars : Option (List ℚ)) : Except PyErr ℚ :=
  match scalars with
  | none => .error .valueError
  | some l => .ok ((arrMin l + arrMax l) * (3 / 5))

/-- Embedding of `generate_surface` (surface_reconstruction.py, lines
70-90).  `marching_cubes` abstracts `vtkMarchingCubes` applied to the
segmented data at the given isovalue; the function raises `ValueError`
exactly when the resulting polydata has zero points, and otherwise returns
that polydata. -/
def generate_surface {α : Type} (marching_cubes : α → ℚ → VtkPolyData)
    (threshold : α) (isovalue : ℚ) : Except PyErr VtkPolyData :=
  let polydata := marching_cubes threshold isovalue
  if polydata.points.length = 0 then .error .valueError
  else .ok polydata

/-- Embedding of the Python string method `lower()` as the scripts apply
it to ASCII format names: every character is lowercased. -/
def lowerStr (s : String) : String := ⟨s.data.map Char.toLower⟩

/-- Writer classes `export_surface` can instantiate. -/
inductive SurfaceWriter
  | polyDataWriter
  | stlWriter
deriving DecidableEq, Repr

/-- Embedding of `export_surface` (surface_reconstruction.py, lines
239-260): picks `vtkPolyDataWriter` when `file_format.lower() == "vtk"`,
`vtkSTLWriter` when it is `"stl"`, and raises `ValueError` otherwise; the
chosen writer then receives the polydata and the path. -/
def export_surface (polydata : VtkPolyData) (file_path : String)
    (file_format : String) : Except PyErr (SurfaceWriter × String × VtkPolyData) :=
  if lowerStr file_format = "vtk" then .ok (.polyDataWriter, file_path, polydata)
  else if lowerStr file_format = "stl" then .ok (.stlWriter, file_path, polydata)
  else .error .valueError

end SurfaceReconstruction

namespace AlignBrainT1Surface

/-- Reader object for a loaded NIfTI volume; only the path matters for the
claims about loading. -/
structure NiftiReader where
  path : String
deriving DecidableEq, Repr

/-- Embedding of `load_t1_image` (align_brain_t1_surface.py, lines 5-24):
raises `FileNotFoundError` when the path does not exist, otherwise loads
and returns the reader. -/
def load_t1_image (fs : String → Bool) (file_path : String) :
    Except PyErr NiftiReader :=
  if ¬ fs file_path then .error .fileNotFound
  else .ok ⟨file_path⟩

/-- Embedding of `segment_t1_image` (align_brain_t1_surface.py, lines
27-47): `ThresholdBetween` with `SetInValue(1)` and `SetOutValue(0)`
(each of which enables the corresponding replacement in
`vtkImageThreshold`), applied to every voxel. -/
def segment_t1_image (input : List ℚ) (lower_threshold upper_threshold : ℚ) : List ℚ :=
  input.map (SurfaceReconstruction.vtkImageThresholdApply
    lower_threshold upper_threshold 1 0)

end AlignBrainT1Surface

namespace VisualizeValidate

/-- Embedding of `validate_file` (visualize_validate.py, lines 21-34) in
exception-transparent form: the body raises nothing — on a missing path it
prints an error message and returns `False`, otherwise it returns `True`.
The `Except` codomain records that no exception escapes on any input. -/
def validate_file (fs : String → Bool) (filepath : String) : Except PyErr Bool :=
  if ¬ fs filepath then .ok false
  else .ok true

end VisualizeValidate

namespace GuiVisualization

/-- Embedding of the scalar-consuming part of
`BrainVisualizerApp.setup_surface` (gui_visualization.py, lines 84-103):
the code computes
`reader.GetOutput().GetPointData().GetScalars().GetRange()` with no guard,
so when the loaded surface has no scalar array, `GetScalars()` returns
`None` and the `.GetRange()` attribute access raises `AttributeError`;
otherwise the mapper receives the scalar range. -/
def setup_surface (scalars : Option (List ℚ)) : Except PyErr (ℚ × ℚ) :=
  match scalars with
  | none => .error .attributeError
  | some l => .ok (arrMin l, arrMax l)

end GuiVisualization

namespace PreprocessT1

/-- Symbolic image values built by `preprocess_t1.py`: each constructor is
one SimpleITK call the script makes, applied to the image it was actually
given, so a term records the exact dataflow of a run. -/
inductive Img
  | read (path : String)
  | cast (i : Img)
  | n4 (i : Img)
  | rescale (i : Img) (outputMinimum outputMaximum : ℚ)
  | adaptiveHistogram (i : Img)
  | bilateral (i : Img) (domainSigma rangeSigma : ℚ)
deriving DecidableEq, Repr

/-- Whether the adaptive-histogram-equalization result occurs anywhere in
the dataflow of an image term. -/
def Img.usesAHE : Img → Bool
  | .read _ => false
  | .cast i => i.usesAHE
  | .n4 i => i.usesAHE
  | .rescale i _ _ => i.usesAHE
  | .adaptiveHistogram _ => true
  | .bilateral i _ _ => i.usesAHE

/-- Embedding of `preprocess_t1` (preprocess_t1.py, lines 5-52): existence
check, read, cast to float32 when the stored pixel type differs
(`isFloat32` abstracts `GetPixelID() == sitkFloat32` for the file), N4
bias-field correction, optional rescale to `[0, 255]`, adaptive histogram
equalization bound to `contrast_enhanced_image`, bilateral smoothing of
`corrected_image`, and a write of `smoothed_image` to `output_path`.  The
result is the path written together with the image term written there. -/
def preprocess_t1 (fs : String → Bool) (isFloat32 : String → Bool)
    (file_path output_path : String) (domain_sigma range_sigma : ℚ)
    (normalize : Bool) : Except PyErr (String × Img) :=
  if ¬ fs file_path then .error .fileNotFound
  else
    let image := Img.read file_path
    let image := if isFloat32 file_path then image else Img.cast image
    let corrected_image := Img.n4 image
    let corrected_image :=
      if normalize then Img.rescale corrected_image 0 255 else corrected_image
    let _contrast_enhanced_image := Img.adaptiveHistogram corrected_image
    let smoothed_image := Img.bilateral corrected_image domain_sigma range_sigma
    .ok (output_path, smoothed_image)

/-- Embedding of `preprocess_t1_with_validation` (preprocess_t1.py, lines
73-107): existence check, read, cast to float32 when needed, N4 bias-field
correction, bilateral smoothing, write.  The `normalize` parameter is
accepted but never read by the body. -/
def preprocess_t1_with_validation (fs : String → Bool) (isFloat32 : String → Bool)
    (file_path output_path : String) (domain_sigma range_sigma : ℚ)
    (_normalize : Bool) : Except PyErr (String × Img) :=
  if ¬ fs file_path then .error .fileNotFound
  else
    let image := Img.read file_path
    let image := if isFloat32 file_path then image else Img.cast image
    let corrected_image := Img.n4 image
    let smoothed_image := Img.bilateral corrected_image domain_sigma range_sigma
    .ok (output_path, smoothed_image)

/-- Whether a run result writes an image whose dataflow contains the
adaptive-histogram-equalization step (`false` for an aborted run). -/
def resultUsesAHE : Except PyErr (String × Img) → Bool
  | .ok (_, i) => i.usesAHE
  | .error _ => false

end PreprocessT1

namespace ValidateT1

/-- SimpleITK image as `validate_t1.py` touches it: the voxel array plus
the spatial metadata (direction matrix as nine row-major entries, spacing,
origin). -/
structure SitkImage where
  values : List ℚ
  direction : List ℚ
  spacing : List ℚ
  origin : List ℚ
deriving DecidableEq, Repr

/-- Direction matrix a freshly constructed SimpleITK image carries: the
identity. -/
def defaultDirection : List ℚ := [1, 0, 0, 0, 1, 0, 0, 0, 1]

/-- Spacing a freshly constructed SimpleITK image carries: unit spacing. -/
def defaultSpacing : List ℚ := [1, 1, 1]

/-- Origin a freshly constructed SimpleITK image carries: the zero
point. -/
def defaultOrigin : List ℚ := [0, 0, 0]

/-- Embedding of `sitk.GetImageFromArray`: builds an image from the raw
voxel array alone, so direction, spacing and origin are the library
defaults, not those of any source image. -/
def GetImageFromArray (vals : List ℚ) : SitkImage :=
  ⟨vals, defaultDirection, defaultSpacing, defaultOrigin⟩

/-- Embedding of `check_and_normalize_intensity` (validate_t1.py, lines
6-29): when the array's intensity range already lies inside
`[lower_bound, upper_bound]` the input image object is returned unchanged;
otherwise each value `v` is mapped to
`(v - min) / (max - min) * (upper_bound - lower_bound) + lower_bound` and
the result is rebuilt from that raw array with `GetImageFromArray`. -/
def check_and_normalize_intensity (image : SitkImage)
    (lower_bound upper_bound : ℚ) : SitkImage :=
  let img_array := image.values
  let min_int := arrMin img_array
  let max_int := arrMax img_array
  if ¬ (lower_bound ≤ min_int ∧ max_int ≤ upper_bound) then
    GetImageFromArray (img_array.map (fun v =>
      (v - min_int) / (max_int - min_int) * (upper_bound - lower_bound) + lower_bound))
  else image

/-- Embedding of `check_orientation` (validate_t1.py, lines 32-60): reads
one entry of the direction matrix according to the requested view and
reports whether it is positive; an unsupported view raises `ValueError`. -/
def check_orientation (image : SitkImage) (view : String) : Except PyErr Bool :=
  let direction := image.direction
  if view = "axial" then .ok (decide (0 < direction.getD 8 0))
  else if view = "sagittal" then .ok (decide (0 < direction.getD 0 0))
  else if view = "coronal" then .ok (decide (0 < direction.getD 4 0))
  else .error .valueError

/-- Embedding of the orientation step of the `validate_t1.py` main block
(lines 108-137): the image handed to `check_orientation` is exactly the
image `check_and_normalize_intensity` returned (with the default bounds 0
and 255), in the axial view. -/
def main_orientation_check (image : SitkImage) : Except PyErr Bool :=
  let normalized_image := check_and_normalize_intensity image 0 255
  check_orientation normalized_image "axial"

end ValidateT1

/-! Concrete inputs used by witnesses and counterexamples. -/

/-- Filesystem on which no path exists. -/
def emptyFS : String → Bool := fun _ => false

/-- Filesystem on which every path exists. -/
def allFS : String → Bool := fun _ => true

/-- Reader outcome with no scalar point data on any path. -/
def noScalars : String → Option (List ℚ) := fun _ => none

/-- Polydata with a single point and no scalars. -/
def onePointPD : VtkPolyData := ⟨[(0, 0, 0)], none⟩

/-- Marching-cubes stand-in that always produces `onePointPD`. -/
def constMC : Unit → ℚ → VtkPolyData := fun _ _ => onePointPD

/-- Image whose intensities 0 and 510 exceed the bound 255, carrying the
default spatial metadata. -/
def img0 : ValidateT1.SitkImage := ⟨[0, 510], [1, 0, 0, 0, 1, 0, 0, 0, 1], [1, 1, 1], [0, 0, 0]⟩

/-- Image with out-of-range intensities and non-default metadata: its
direction matrix has a negative last entry, spacing 2 and origin 5. -/
def imgNeg : ValidateT1.SitkImage :=
  ⟨[0, 300], [1, 0, 0, 0, 1, 0, 0, 0, -1], [2, 2, 2], [5, 5, 5]⟩

/-- Image whose intensities already lie inside the bounds 0 and 255. -/
def imgIn : ValidateT1.SitkImage :=
  ⟨[10, 20], [1, 0, 0, 0, 1, 0, 0, 0, -1], [2, 2, 2], [5, 5, 5]⟩

/-! Bounds on `arrMin` and `arrMax` over list members. -/

theorem foldl_min_le_init (xs : List ℚ) (a : ℚ) : xs.foldl min a ≤ a := by
  induction xs generalizing a with
  | nil => exact le_refl a
  | cons x xs ih => exact le_trans (ih (min a x)) (min_le_left a x)

theorem foldl_min_le_mem (xs : List ℚ) (a v : ℚ) (hv : v ∈ xs) :
    xs.foldl min a ≤ v := by
  induction xs generalizing a with
  | nil => cases hv
  | cons x xs ih =>
    rcases List.mem_cons.mp hv with h | h
    · subst h
      exact le_trans (foldl_min_le_init xs (min a v)) (min_le_right a v)
    · exact ih (min a x) h

theorem arrMin_le_mem (l : List ℚ) (v : ℚ) (hv : v ∈ l) : arrMin l ≤ v := by
  cases l with
  | nil => cases hv
  | cons x xs =>
    rcases List.mem_cons.mp hv with h | h
    · subst h
      exact foldl_min_le_init xs v
    · exact foldl_min_le_mem xs x v h

theorem init_le_foldl_max (xs : List ℚ) (a : ℚ) : a ≤ xs.foldl max a := by
  induction xs generalizing a with
  | nil => exact le_refl a
  | cons x xs ih => exact le_trans (le_max_left a x) (ih (max a x))

theorem mem_le_foldl_max (xs : List ℚ) (a v : ℚ) (hv : v ∈ xs) :
    v ≤ xs.foldl max a := by
  induction xs generalizing a with
  | nil => cases hv
  | cons x xs ih =>
    rcases List.mem_cons.mp hv with h | h
    · subst h
      exact le_trans (le_max_right a v) (init_le_foldl_max xs (max a v))
    · exact ih (max a x) h

theorem mem_le_arrMax (l : List ℚ) (v : ℚ) (hv : v ∈ l) : v ≤ arrMax l := by
  cases l with
  | nil => cases hv
  | cons x xs =>
    rcases List.mem_cons.mp hv with h | h
    · subst h
      exact init_le_foldl_max xs v
    · exact mem_le_foldl_max xs x v h

/-! Claim theorems. -/

/-- Claim C1: for every fMRI volume with scalar point data and every brain
surface with N points, `map_fmri_to_surface` attaches to the surface a
scalar array of exactly N values whose i-th entry equals the fMRI scalar
stored at the grid point the point-locator query reports closest to the
i-th surface point, with 0 for a point whose locator query fails; the
surface points themselves are unchanged. -/
theorem C1_map_fmri_to_surface_spec
    (findClosest : (ℚ × ℚ × ℚ) → Option ℕ) (fmri_data : ℕ → ℚ)
    (s : VtkPolyData) :
    ∃ arr : List ℚ,
      (MapFmriAndBrain.map_fmri_to_surface findClosest fmri_data s).scalars = some arr ∧
      (MapFmriAndBrain.map_fmri_to_surface findClosest fmri_data s).points = s.points ∧
      arr.length = s.points.length ∧
      ∀ i : ℕ, arr[i]? = (s.points[i]?).map (fun p =>
        match findClosest p with
        | some j => fmri_data j
        | none => 0) := by
  refine ⟨_, rfl, rfl, by simp [MapFmriAndBrain.map_fmri_to_surface], fun i => ?_⟩
  simp [MapFmriAndBrain.map_fmri_to_surface]

/-- Claim C2 (counterexample): with requested thresholds 30 and 60, the
input voxel 40 is replaced by the in-value 1, which does not lie within
[30, 60], so the thresholding output scalars do not all lie within the
requested bounds. -/
theorem C2_counterexample_segment_out_of_bounds :
    ¬ (∀ v ∈ SurfaceReconstruction.segment_data [40] 30 60, 30 ≤ v ∧ v ≤ 60) := by
  decide

/-- Claim C2 (amended): for every input volume and threshold pair, each
scalar of the thresholding output of `segment_data` and `segment_t1_image`
equals 0 or 1 — the configured out-value and in-value (1 for voxels inside
[lower, upper], 0 outside) — rather than lying within [lower, upper]
itself. -/
theorem C2_segment_output_binary (input : List ℚ) (lower upper : ℚ) :
    (∀ v ∈ SurfaceReconstruction.segment_data input lower upper, v = 0 ∨ v = 1) ∧
    (∀ v ∈ AlignBrainT1Surface.segment_t1_image input lower upper, v = 0 ∨ v = 1) := by
  constructor <;>
  · intro v hv
    simp only [SurfaceReconstruction.segment_data, AlignBrainT1Surface.segment_t1_image,
      List.mem_map] at hv
    obtain ⟨x, -, hx⟩ := hv
    unfold SurfaceReconstruction.vtkImageThresholdApply at hx
    subst hx
    split
    · exact Or.inr rfl
    · exact Or.inl rfl

/-- Claim C2 witness: the in-range voxel 40 under thresholds 30 and 60
yields the output scalar 1, which the amended claim classifies as the
in-value. -/
theorem C2_segment_output_binary_witness :
    (1 : ℚ) ∈ SurfaceReconstruction.segment_data [40] 30 60 ∧
    ((1 : ℚ) = 0 ∨ (1 : ℚ) = 1) :=
  ⟨by decide, (C2_segment_output_binary [40] 30 60).1 1 (by decide)⟩

/-- Claim C3 (counterexample): on a filesystem with no files,
`validate_file` applied to a missing path completes normally with the
value `False` and raises nothing, so it is not the case that every loading
entry point raises a file-not-found condition on a missing path. -/
theorem C3_counterexample_validate_file_no_raise :
    VisualizeValidate.validate_file emptyFS "missing.nii.gz" = .ok false ∧
    ¬ ∃ e : PyErr, VisualizeValidate.validate_file emptyFS "missing.nii.gz" = .error e := by
  refine ⟨rfl, ?_⟩
  rintro ⟨e, h⟩
  rw [show VisualizeValidate.validate_file emptyFS "missing.nii.gz" = .ok false from rfl] at h
  exact Except.noConfusion h

/-- Claim C3 (amended): the loaders that guard their input path —
`load_t1_image`, `load_fmri_image`, `preprocess_t1`, and
`preprocess_t1_with_validation` — raise `FileNotFoundError` on every
missing path, but `validate_file` instead prints a message and returns
`False` without raising, so the file-not-found condition is raised by some
loading entry points, not all of them. -/
theorem C3_missing_file_behaviour
    (fs : String → Bool) (rd : String → Option (List ℚ)) (isF : String → Bool)
    (p out : String) (a b : ℚ) (nrm : Bool) (h : fs p = false) :
    AlignBrainT1Surface.load_t1_image fs p = .error .fileNotFound ∧
    MapFmriAndBrain.load_fmri_image fs rd p = .error .fileNotFound ∧
    PreprocessT1.preprocess_t1 fs isF p out a b nrm = .error .fileNotFound ∧
    PreprocessT1.preprocess_t1_with_validation fs isF p out a b nrm = .error .fileNotFound ∧
    VisualizeValidate.validate_file fs p = .ok false := by
  refine ⟨?_, ?_, ?_, ?_, ?_⟩ <;>
    simp [AlignBrainT1Surface.load_t1_image, MapFmriAndBrain.load_fmri_image,
      PreprocessT1.preprocess_t1, PreprocessT1.preprocess_t1_with_validation,
      VisualizeValidate.validate_file, h]

/-- Claim C3 witness: on the empty filesystem and path `"missing.nii.gz"`,
the guarded loaders raise the file-not-found error while `validate_file`
returns `False`. -/
theorem C3_missing_file_behaviour_witness :
    AlignBrainT1Surface.load_t1_image emptyFS "missing.nii.gz" = .error .fileNotFound ∧
    MapFmriAndBrain.load_fmri_image emptyFS noScalars "missing.nii.gz" = .error .fileNotFound ∧
    PreprocessT1.preprocess_t1 emptyFS allFS "missing.nii.gz" "out.nii.gz" (1 / 10) 20 true
      = .error .fileNotFound ∧
    PreprocessT1.preprocess_t1_with_validation emptyFS allFS "missing.nii.gz" "out.nii.gz"
      (1 / 10) 20 true = .error .fileNotFound ∧
    VisualizeValidate.validate_file emptyFS "missing.nii.gz" = .ok false :=
  C3_missing_file_behaviour emptyFS noScalars allFS "missing.nii.gz" "out.nii.gz"
    (1 / 10) 20 true rfl

/-- Claim C4 (counterexample): in a concrete `preprocess_t1` run the image
written to the output path is the bilateral smoothing of the rescaled
bias-corrected image, not of the adaptive-histogram-equalization result,
and the equalization step occurs nowhere in the written image's dataflow —
so a computed step result is discarded and the bilateral smoothing does not
consume the contrast-enhancement output that precedes it. -/
theorem C4_counterexample_ahe_discarded :
    PreprocessT1.preprocess_t1 allFS allFS "t1.nii.gz" "out.nii.gz" (1 / 10) 20 true =
      .ok ("out.nii.gz",
        PreprocessT1.Img.bilateral
          (PreprocessT1.Img.rescale
            (PreprocessT1.Img.n4 (PreprocessT1.Img.read "t1.nii.gz")) 0 255)
          (1 / 10) 20) ∧
    PreprocessT1.resultUsesAHE
      (PreprocessT1.preprocess_t1 allFS allFS "t1.nii.gz" "out.nii.gz" (1 / 10) 20 true)
      = false := by
  constructor <;> rfl

/-- Claim C4 (amended): the pipeline is a linear chain in which each step
consumes the preceding result, except that the adaptive-histogram-
equalization result computed in `preprocess_t1` is discarded: when the
input exists, the written image is exactly the bilateral smoothing of the
bias-corrected (and, when `normalize` is set, rescaled) image, and the
equalization step never occurs in the written image's dataflow. -/
theorem C4_pipeline_dataflow
    (fs isF : String → Bool) (p out : String) (a b : ℚ) (nrm : Bool)
    (h : fs p = true) :
    PreprocessT1.preprocess_t1 fs isF p out a b nrm =
      .ok (out,
        PreprocessT1.Img.bilateral
          (if nrm then
            PreprocessT1.Img.rescale
              (PreprocessT1.Img.n4
                (if isF p then PreprocessT1.Img.read p
                 else PreprocessT1.Img.cast (PreprocessT1.Img.read p))) 0 255
           else
            PreprocessT1.Img.n4
              (if isF p then PreprocessT1.Img.read p
               else PreprocessT1.Img.cast (PreprocessT1.Img.read p)))
          a b) ∧
    PreprocessT1.resultUsesAHE (PreprocessT1.preprocess_t1 fs isF p out a b nrm)
      = false := by
  have h1 : PreprocessT1.preprocess_t1 fs isF p out a b nrm = _ := rfl
  constructor
  · simp only [PreprocessT1.preprocess_t1, h]
    cases nrm <;> cases hf : isF p <;> simp
  · simp only [PreprocessT1.preprocess_t1, h]
    cases nrm <;> cases hf : isF p <;>
      simp [PreprocessT1.resultUsesAHE, PreprocessT1.Img.usesAHE]

/-- Claim C4 witness: a concrete run on an existing input with
`normalize = False` writes the bilateral smoothing of the bias-corrected
image, with no equalization step in its dataflow. -/
theorem C4_pipeline_dataflow_witness :
    PreprocessT1.preprocess_t1 allFS allFS "t1.nii.gz" "pre.nii.gz" (1 / 10) 20 false =
      .ok ("pre.nii.gz",
        PreprocessT1.Img.bilateral
          (if false then
            PreprocessT1.Img.rescale
              (PreprocessT1.Img.n4
                (if allFS "t1.nii.gz" then PreprocessT1.Img.read "t1.nii.gz"
                 else PreprocessT1.Img.cast (PreprocessT1.Img.read "t1.nii.gz"))) 0 255
           else
            PreprocessT1.Img.n4
              (if allFS "t1.nii.gz" then PreprocessT1.Img.read "t1.nii.gz"
               else PreprocessT1.Img.cast (PreprocessT1.Img.read "t1.nii.gz")))
          (1 / 10) 20) ∧
    PreprocessT1.resultUsesAHE
      (PreprocessT1.preprocess_t1 allFS allFS "t1.nii.gz" "pre.nii.gz" (1 / 10) 20 false)
      = false :=
  C4_pipeline_dataflow allFS allFS "t1.nii.gz" "pre.nii.gz" (1 / 10) 20 false rfl

/-- Claim C5 (counterexample): `BrainVisualizerApp.setup_surface` reads the
loaded surface's point scalars with no value check: when the scalar array
is absent it fails with the attribute error from calling `GetRange` on
`None`, not with a guarded `ValueError`, so not every script path that
reads point scalars is guarded by a value check. -/
theorem C5_counterexample_setup_surface_unguarded :
    GuiVisualization.setup_surface none = .error .attributeError ∧
    GuiVisualization.setup_surface none ≠ .error .valueError := by
  refine ⟨rfl, fun h => ?_⟩
  have := Except.error.inj h
  exact PyErr.noConfusion this

/-- Claim C5 (amended): `load_fmri_image` raises `ValueError` when the
loaded image has no scalar point data and `calculate_dynamic_isovalue`
raises `ValueError` when the segmented data has no scalars, but
`BrainVisualizerApp.setup_surface` reads the scalar array unguarded and
fails with an attribute error on `None` rather than a value check. -/
theorem C5_missing_scalar_behaviour
    (fs : String → Bool) (rd : String → Option (List ℚ)) (p : String)
    (hfs : fs p = true) (hrd : rd p = none) :
    MapFmriAndBrain.load_fmri_image fs rd p = .error .valueError ∧
    SurfaceReconstruction.calculate_dynamic_isovalue none = .error .valueError ∧
    GuiVisualization.setup_surface none = .error .attributeError := by
  refine ⟨?_, rfl, rfl⟩
  simp [MapFmriAndBrain.load_fmri_image, hfs, hrd]

/-- Claim C5 witness: on a filesystem where every path exists but no path
yields scalar data, the three scalar-consuming operations behave as the
amended claim states. -/
theorem C5_missing_scalar_behaviour_witness :
    MapFmriAndBrain.load_fmri_image allFS noScalars "fmri.nii.gz" = .error .valueError ∧
    SurfaceReconstruction.calculate_dynamic_isovalue none = .error .valueError ∧
    GuiVisualization.setup_surface none = .error .attributeError :=
  C5_missing_scalar_behaviour allFS noScalars "fmri.nii.gz" rfl rfl

/-- Claim C6: for every segmented input and isovalue, `generate_surface`
raises `ValueError` exactly when the marching-cubes output contains zero
points, and otherwise returns that non-empty polydata. -/
theorem C6_generate_surface_spec
    {α : Type} (marching_cubes : α → ℚ → VtkPolyData) (threshold : α) (isovalue : ℚ) :
    (SurfaceReconstruction.generate_surface marching_cubes threshold isovalue
        = .error .valueError ↔
      (marching_cubes threshold isovalue).points.length = 0) ∧
    ((marching_cubes threshold isovalue).points.length ≠ 0 →
      SurfaceReconstruction.generate_surface marching_cubes threshold isovalue
        = .ok (marching_cubes threshold isovalue)) := by
  unfold SurfaceReconstruction.generate_surface
  constructor
  · constructor
    · intro h
      by_contra hn
      simp [hn] at h
    · intro h
      simp [h]
  · intro h
    simp [h]

/-- Claim C6 witness: a marching-cubes output with one point is returned
as-is by `generate_surface`. -/
theorem C6_generate_surface_spec_witness :
    onePointPD.points.length ≠ 0 ∧
    SurfaceReconstruction.generate_surface constMC () 1 = .ok onePointPD :=
  ⟨by decide, (C6_generate_surface_spec constMC () 1).2 (by decide)⟩

/-- Claim C7: for every polydata, path, and format string, `export_surface`
raises `ValueError` exactly when the format compared case-insensitively is
neither `vtk` nor `stl`; for `vtk` it hands the polydata and path to the
legacy polydata writer and for `stl` to the STL writer. -/
theorem C7_export_surface_spec
    (polydata : VtkPolyData) (file_path file_format : String) :
    (SurfaceReconstruction.export_surface polydata file_path file_format
        = .error .valueError ↔
      (SurfaceReconstruction.lowerStr file_format ≠ "vtk" ∧ SurfaceReconstruction.lowerStr file_format ≠ "stl")) ∧
    (SurfaceReconstruction.lowerStr file_format = "vtk" →
      SurfaceReconstruction.export_surface polydata file_path file_format
        = .ok (.polyDataWriter, file_path, polydata)) ∧
    (SurfaceReconstruction.lowerStr file_format = "stl" →
      SurfaceReconstruction.export_surface polydata file_path file_format
        = .ok (.stlWriter, file_path, polydata)) := by
  unfold SurfaceReconstruction.export_surface
  by_cases hv : SurfaceReconstruction.lowerStr file_format = "vtk" <;> by_cases hs : SurfaceReconstruction.lowerStr file_format = "stl" <;>
    simp [hv, hs]

/-- Claim C7 witness: the format string `"STL"` selects the STL writer, and
the format string `"obj"` raises `ValueError`. -/
theorem C7_export_surface_spec_witness :
    SurfaceReconstruction.lowerStr "STL" = "stl" ∧
    SurfaceReconstruction.export_surface onePointPD "surface.stl" "STL"
      = .ok (.stlWriter, "surface.stl", onePointPD) ∧
    SurfaceReconstruction.export_surface onePointPD "surface.obj" "obj"
      = .error .valueError :=
  ⟨by decide,
   (C7_export_surface_spec onePointPD "surface.stl" "STL").2.2 (by decide),
   (C7_export_surface_spec onePointPD "surface.obj" "obj").1.mpr ⟨by decide, by decide⟩⟩

/-- Claim C8: for every input, output path, and sigma pair, `preprocess_t1`
with `normalize = False` produces exactly the run `preprocess_t1_with_validation`
produces with the same arguments, and in every run of `preprocess_t1` —
whatever `normalize` is — the adaptive-histogram-equalization result never
occurs in the dataflow of the image written to the output path. -/
theorem C8_preprocess_refinement
    (fs isF : String → Bool) (p out : String) (a b : ℚ) :
    PreprocessT1.preprocess_t1 fs isF p out a b false =
      PreprocessT1.preprocess_t1_with_validation fs isF p out a b false ∧
    ∀ nrm : Bool,
      PreprocessT1.resultUsesAHE (PreprocessT1.preprocess_t1 fs isF p out a b nrm)
        = false := by
  constructor
  · rfl
  · intro nrm
    unfold PreprocessT1.preprocess_t1
    by_cases h : fs p = true
    · cases nrm <;> cases hf : isF p <;>
        simp [h, hf, PreprocessT1.resultUsesAHE, PreprocessT1.Img.usesAHE]
    · simp [h, PreprocessT1.resultUsesAHE]

/-- Claim C9: whenever an image's intensities are not all equal (so the
array maximum strictly exceeds the minimum), the divisor `max - min` in
`check_and_normalize_intensity` is nonzero and every intensity of the
returned image lies within the bounds 0 and 255 the script uses. -/
theorem C9_normalize_in_bounds (image : ValidateT1.SitkImage)
    (h : arrMin image.values < arrMax image.values) :
    arrMax image.values - arrMin image.values ≠ 0 ∧
    ∀ v ∈ (ValidateT1.check_and_normalize_intensity image 0 255).values,
      0 ≤ v ∧ v ≤ 255 := by
  refine ⟨sub_ne_zero_of_ne (ne_of_gt h), fun v hv => ?_⟩
  by_cases hcond : (0 : ℚ) ≤ arrMin image.values ∧ arrMax image.values ≤ 255
  · have hrw : ValidateT1.check_and_normalize_intensity image 0 255 = image := by
      unfold ValidateT1.check_and_normalize_intensity
      rw [if_neg (not_not_intro hcond)]
    rw [hrw] at hv
    exact ⟨le_trans hcond.1 (arrMin_le_mem _ _ hv),
      le_trans (mem_le_arrMax _ _ hv) hcond.2⟩
  · have hrw : ValidateT1.check_and_normalize_intensity image 0 255 =
        ValidateT1.GetImageFromArray (image.values.map (fun w =>
          (w - arrMin image.values) / (arrMax image.values - arrMin image.values)
            * (255 - 0) + 0)) := by
      unfold ValidateT1.check_and_normalize_intensity
      rw [if_pos hcond]
    rw [hrw] at hv
    simp only [ValidateT1.GetImageFromArray, List.mem_map] at hv
    obtain ⟨w, hw, rfl⟩ := hv
    have h1 : arrMin image.values ≤ w := arrMin_le_mem _ _ hw
    have h2 : w ≤ arrMax image.values := mem_le_arrMax _ _ hw
    have hpos : 0 < arrMax image.values - arrMin image.values := by linarith
    have ht0 : 0 ≤ (w - arrMin image.values) / (arrMax image.values - arrMin image.values) :=
      div_nonneg (by linarith) (le_of_lt hpos)
    have ht1 : (w - arrMin image.values) / (arrMax image.values - arrMin image.values) ≤ 1 := by
      rw [div_le_one hpos]
      linarith
    constructor <;> nlinarith

/-- Claim C9 witness: the image with intensities 0 and 510 is normalized,
and the normalized value 255 obtained for the voxel 510 lies within the
bounds. -/
theorem C9_normalize_in_bounds_witness :
    (255 : ℚ) ∈ (ValidateT1.check_and_normalize_intensity img0 0 255).values ∧
    (0 ≤ (255 : ℚ) ∧ (255 : ℚ) ≤ 255) :=
  ⟨by norm_num [ValidateT1.check_and_normalize_intensity, ValidateT1.GetImageFromArray,
      img0, arrMin, arrMax],
   (C9_normalize_in_bounds img0 (by decide)).2 255
    (by norm_num [ValidateT1.check_and_normalize_intensity, ValidateT1.GetImageFromArray,
      img0, arrMin, arrMax])⟩

/-- Claim C10: `check_and_normalize_intensity` returns the input image
object itself when the intensities already lie within the bounds; when it
normalizes, the returned image carries the library-default direction
matrix, spacing, and origin instead of the input's spatial metadata, and
it is that rebuilt image the subsequent axial orientation check of the
main block inspects — so the check sees the default identity direction
(last entry 1 > 0) and reports `True` regardless of the input's own
direction matrix. -/
theorem C10_normalize_frame_effect (image : ValidateT1.SitkImage) :
    ((0 ≤ arrMin image.values ∧ arrMax image.values ≤ 255) →
      ValidateT1.check_and_normalize_intensity image 0 255 = image) ∧
    (¬ (0 ≤ arrMin image.values ∧ arrMax image.values ≤ 255) →
      (ValidateT1.check_and_normalize_intensity image 0 255).direction
          = ValidateT1.defaultDirection ∧
      (ValidateT1.check_and_normalize_intensity image 0 255).spacing
          = ValidateT1.defaultSpacing ∧
      (ValidateT1.check_and_normalize_intensity image 0 255).origin
          = ValidateT1.defaultOrigin ∧
      ValidateT1.main_orientation_check image = .ok true) := by
  constructor
  · intro hin
    unfold ValidateT1.check_and_normalize_intensity
    rw [if_neg (not_not_intro hin)]
  · intro hout
    have hrw : ValidateT1.check_and_normalize_intensity image 0 255 =
        ValidateT1.GetImageFromArray (image.values.map (fun v =>
          (v - arrMin image.values) / (arrMax image.values - arrMin image.values)
            * (255 - 0) + 0)) := by
      unfold ValidateT1.check_and_normalize_intensity
      rw [if_pos hout]
    refine ⟨by rw [hrw]; rfl, by rw [hrw]; rfl, by rw [hrw]; rfl, ?_⟩
    unfold ValidateT1.main_orientation_check ValidateT1.check_orientation
    rw [hrw]
    simp [ValidateT1.GetImageFromArray, ValidateT1.defaultDirection]

/-- Claim C10 witness: an in-range image is returned untouched, and an
out-of-range image with a downward-pointing direction matrix, non-unit
spacing, and non-zero origin comes back with the default metadata, so the
main block's axial orientation check reports `True` despite the original
negative direction entry. -/
theorem C10_normalize_frame_effect_witness :
    ValidateT1.check_and_normalize_intensity imgIn 0 255 = imgIn ∧
    ((ValidateT1.check_and_normalize_intensity imgNeg 0 255).direction
        = ValidateT1.defaultDirection ∧
      (ValidateT1.check_and_normalize_intensity imgNeg 0 255).spacing
        = ValidateT1.defaultSpacing ∧
      (ValidateT1.check_and_normalize_intensity imgNeg 0 255).origin
        = ValidateT1.defaultOrigin ∧
      ValidateT1.main_orientation_check imgNeg = .ok true) :=
  ⟨(C10_normalize_frame_effect imgIn).1 (by decide),
   (C10_normalize_frame_effect imgNeg).2 (by decide)⟩

end NeuroViz
